import Mathlib

/-!
Shallow embedding of psycopg2's `green.c` (cooperative waiting layer):
the callback registry (`psyco_set_wait_callback`, `psyco_green`), the
async gate (`have_wait_callback`, `psyco_wait`), the green executor
(`psyco_exec_green`) and the panic-cancel recovery (`psyco_panic_cancel`).
External collaborators (libpq, the Python C API, pqpath.c) are modelled by
an environment record supplying the outcome of each external call, and by
an explicit interpreter state holding the pending Python exception, the
warnings raised with `PyErr_WarnEx`, and a trace of collaborator calls.
-/

namespace Green

/-- Connection async status (the `ASYNC_*` constants of the C core). -/
inductive AsyncStatus where
  | idle
  | write
  | read
  | done
deriving DecidableEq

/-- Python exception kinds set by this core and by its collaborators.
`callbackError` models an exception propagated out of the wait callback,
`markerError` a `PyWeakref_NewRef` failure, `sendError` the exception set
by `pq_send_query` on failure. -/
inductive PyErr where
  | programmingError (msg : String)
  | operationalError (msg : String)
  | callbackError
  | markerError
  | sendError
deriving DecidableEq

/-- External calls recorded while the core runs, used to state that a given
collaborator was or was not invoked on a given path. -/
inductive Call where
  | send
  | wait
  | panicCancel
  | cancel
  | close
  | getResult
deriving DecidableEq

/-- The fields of `connectionObject` this core reads and writes:
the weakref busy marker `async_cursor` (an opaque token), `async_status`,
and whether `conn_close_locked` has been invoked on it. -/
structure Conn where
  async_cursor : Option Nat
  async_status : AsyncStatus
  closed : Bool
deriving DecidableEq

/-- Interpreter-level state threaded through the core: the connection, the
pending Python exception, the warnings raised with `PyErr_WarnEx`, and the
trace of collaborator calls. -/
structure PState where
  conn : Conn
  err : Option PyErr
  warnings : List String
  trace : List Call
deriving DecidableEq

/-- Outcomes of the external collaborators for one execution: the
registered wait callback (the global `wait_callback` slot), whether
`PyWeakref_NewRef`, `pq_send_query` and `PQcancel` succeed, whether the
callback invocation succeeds at the primary wait (`cbOk1`) and at the
post-cancel wait (`cbOk2`), the `errbuf` text on `PQcancel` failure, and
the result of `pq_get_last_result` after a successful primary wait. -/
structure Env where
  wait_callback : Option Nat
  markerOk : Bool
  sendOk : Bool
  cbOk1 : Bool
  cbOk2 : Bool
  cancelOk : Bool
  cancelErrMsg : String
  lastResult : Option Nat
deriving DecidableEq

/-- `psyco_set_wait_callback`: replace the registered callback; passing
`Py_None` (modelled as `none`) clears the slot. -/
def psyco_set_wait_callback (reg obj : Option Nat) : Option Nat :=
  match obj with
  | some o => some o
  | none => none

/-- `psyco_get_wait_callback`: return the currently registered callback,
or `Py_None` when the slot is empty (both modelled as the slot value). -/
def psyco_get_wait_callback (reg : Option Nat) : Option Nat :=
  reg

/-- `psyco_green`: nonzero iff a wait callback is registered, when the
module is compiled with `PSYCOPG_EXTENSIONS` (the `ext` flag); always
zero otherwise. -/
def psyco_green (ext : Bool) (reg : Option Nat) : Bool :=
  if ext then reg.isSome else false

/-- `have_wait_callback`: return the callback if one is registered,
otherwise set `OperationalError` and return `NULL`. -/
def have_wait_callback (reg : Option Nat) (s : PState) : Option Nat × PState :=
  match reg with
  | none =>
      (none,
       { s with err := some (PyErr.operationalError "wait callback not available") })
  | some cb => (some cb, s)

/-- `psyco_wait`: look up the callback via `have_wait_callback`, then
invoke it; `cbOk` is the environment-supplied outcome of the invocation.
Returns 0 on success, -1 with a pending exception on failure. -/
def psyco_wait (reg : Option Nat) (cbOk : Bool) (s : PState) : Int × PState :=
  let s := { s with trace := s.trace ++ [Call.wait] }
  match have_wait_callback reg s with
  | (none, s1) => (-1, s1)
  | (some _, s1) =>
      if cbOk then (0, s1)
      else (-1, { s1 with err := some PyErr.callbackError })

/-- `psyco_panic_cancel`: fetch the pending exception (noting whether one
was set), call `PQcancel`; on transport failure raise a warning carrying
`errbuf` and stop; otherwise re-enter `psyco_wait`, and if that second
wait fails raise the closing warning and call `conn_close_locked`; on a
successful second wait drain `pq_get_last_result`. Finally restore the
fetched exception if one was pending, leaving any newly raised exception
in place otherwise. -/
def psyco_panic_cancel (env : Env) (s0 : PState) : PState :=
  let sA := { s0 with trace := s0.trace ++ [Call.panicCancel] }
  let saved := sA.err
  let sB := { sA with err := none }
  let sC := { sB with trace := sB.trace ++ [Call.cancel] }
  let sD :=
    if env.cancelOk = false then
      { sC with warnings := sC.warnings ++ [env.cancelErrMsg] }
    else
      let p := psyco_wait env.wait_callback env.cbOk2 sC
      if p.1 ≠ 0 then
        { p.2 with
            warnings :=
              p.2.warnings ++ ["async cancel failed: closing the connection"],
            conn := { p.2.conn with closed := true },
            trace := p.2.trace ++ [Call.close] }
      else
        { p.2 with trace := p.2.trace ++ [Call.getResult] }
  match saved with
  | some e => { sD with err := some e }
  | none => sD

/-- The `end:` label of `psyco_exec_green`: force `ASYNC_DONE`, clear the
busy marker, and return the accumulated result. -/
def exec_end (result : Option Nat) (s : PState) : Option Nat × PState :=
  (result,
   { s with conn :=
       { s.conn with async_status := AsyncStatus.done, async_cursor := none } })

/-- `psyco_exec_green`: guard against a concurrent async query, install
the weakref busy marker, send the command, set `ASYNC_WRITE`, enter the
cooperative wait (invoking `psyco_panic_cancel` if it fails) and fetch the
last result; every path falls through the `end:` label. -/
def psyco_exec_green (env : Env) (command : String) (s0 : PState) :
    Option Nat × PState :=
  if s0.conn.async_cursor.isSome then
    exec_end none
      { s0 with err := some (PyErr.programmingError
          "a single async query can be executed on the same connection") }
  else if env.markerOk = false then
    exec_end none { s0 with err := some PyErr.markerError }
  else
    let s1 := { s0 with conn := { s0.conn with async_cursor := some 0 } }
    let s2 := { s1 with trace := s1.trace ++ [Call.send] }
    if env.sendOk = false then
      exec_end none { s2 with err := some PyErr.sendError }
    else
      let s3 := { s2 with conn := { s2.conn with async_status := AsyncStatus.write } }
      let p := psyco_wait env.wait_callback env.cbOk1 s3
      if p.1 ≠ 0 then
        exec_end none (psyco_panic_cancel env p.2)
      else
        exec_end env.lastResult { p.2 with trace := p.2.trace ++ [Call.getResult] }

/-- C9: `psyco_set_wait_callback` is idempotent on `none` (clearing the
registry twice in a row yields the same registry state as clearing it
once), and after `psyco_set_wait_callback v` the predicate `psyco_green`
(under the `PSYCOPG_EXTENSIONS` build, the one shipped) is true iff `v`
is a callback rather than `none`: it reflects exactly the last value set. -/
theorem set_wait_callback_idempotent_green_reflects :
    (∀ reg : Option Nat,
      psyco_set_wait_callback (psyco_set_wait_callback reg none) none
        = psyco_set_wait_callback reg none)
    ∧ (∀ (reg v : Option Nat),
      psyco_green true (psyco_set_wait_callback reg v) = v.isSome) := by
  constructor
  · intro reg
    rfl
  · intro reg v
    cases v <;> rfl

/-- C3: whenever `psyco_exec_green` is entered with a null busy marker, on
return (through any path, since every path falls through the `end:` label)
the busy marker is null again and `async_status` is `ASYNC_DONE`. -/
theorem exec_green_clears_marker_and_status (env : Env) (command : String)
    (s0 : PState) (h : s0.conn.async_cursor = none) :
    (psyco_exec_green env command s0).2.conn.async_cursor = none
    ∧ (psyco_exec_green env command s0).2.conn.async_status = AsyncStatus.done := by
  unfold psyco_exec_green
  split
  · simp [exec_end]
  · split
    · simp [exec_end]
    · split
      · simp [exec_end]
      · simp only [exec_end]
        split <;> simp

/-- C3 witness: a concrete successful run (callback registered, everything
succeeds) starting with a null marker ends with a null marker and
`ASYNC_DONE`. -/
theorem exec_green_clears_marker_and_status_witness :
    (psyco_exec_green ⟨some 1, true, true, true, true, true, "eb", some 7⟩ "select 1"
      ⟨⟨none, AsyncStatus.idle, false⟩, none, [], []⟩).2.conn.async_cursor = none
    ∧ (psyco_exec_green ⟨some 1, true, true, true, true, true, "eb", some 7⟩ "select 1"
      ⟨⟨none, AsyncStatus.idle, false⟩, none, [], []⟩).2.conn.async_status
        = AsyncStatus.done :=
  exec_green_clears_marker_and_status
    ⟨some 1, true, true, true, true, true, "eb", some 7⟩ "select 1"
    ⟨⟨none, AsyncStatus.idle, false⟩, none, [], []⟩ rfl

/-- C6: whenever `psyco_panic_cancel` is entered with a pending exception,
that exception is the one pending when it returns, in all three recovery
outcomes (cancel transport failure, second-wait failure, second-wait
success): recovery-path failures only add warnings, never replace the
primary error. -/
theorem panic_cancel_preserves_original_error (env : Env) (s0 : PState)
    (e : PyErr) (h : s0.err = some e) :
    (psyco_panic_cancel env s0).err = some e := by
  unfold psyco_panic_cancel
  simp [h]

/-- C6 witness: with a pending callback error and a recovery whose second
wait fails, the pending exception after `psyco_panic_cancel` is still the
original callback error. -/
theorem panic_cancel_preserves_original_error_witness :
    (psyco_panic_cancel ⟨some 1, true, true, true, false, true, "eb", some 7⟩
      ⟨⟨some 0, AsyncStatus.write, false⟩, some PyErr.callbackError, [], []⟩).err
      = some PyErr.callbackError :=
  panic_cancel_preserves_original_error
    ⟨some 1, true, true, true, false, true, "eb", some 7⟩
    ⟨⟨some 0, AsyncStatus.write, false⟩, some PyErr.callbackError, [], []⟩
    PyErr.callbackError rfl

/-- C1 counterexample: with the busy marker already set (to token 5) and
`async_status` idle, `psyco_exec_green` does NOT leave `async_status` and
the existing marker exactly as they were: the `goto end` path forces
`async_status` to `ASYNC_DONE` (it was idle) and clears the marker
(it was `some 5`). -/
theorem exec_green_busy_mutates_counterexample :
    ((psyco_exec_green ⟨none, true, true, true, true, true, "eb", some 7⟩ "q"
        ⟨⟨some 5, AsyncStatus.idle, false⟩, none, [], []⟩).2.conn.async_status
          = AsyncStatus.done
      ∧ AsyncStatus.done ≠ AsyncStatus.idle)
    ∧ ((psyco_exec_green ⟨none, true, true, true, true, true, "eb", some 7⟩ "q"
        ⟨⟨some 5, AsyncStatus.idle, false⟩, none, [], []⟩).2.conn.async_cursor
          = none
      ∧ (none : Option Nat) ≠ some 5) :=
  ⟨⟨rfl, by decide⟩, ⟨rfl, by decide⟩⟩

/-- C1 amended: calling `psyco_exec_green` on a connection whose busy
marker is already set returns no result with the `ProgrammingError`
"a single async query can be executed on the same connection" pending,
but it does mutate connection state: the `goto end` path forces
`async_status` to `ASYNC_DONE` and clears the pre-existing busy marker. -/
theorem exec_green_busy_errors_and_clears (env : Env) (command : String)
    (s0 : PState) (h : s0.conn.async_cursor.isSome = true) :
    (psyco_exec_green env command s0).1 = none
    ∧ (psyco_exec_green env command s0).2.err
        = some (PyErr.programmingError
            "a single async query can be executed on the same connection")
    ∧ (psyco_exec_green env command s0).2.conn.async_status = AsyncStatus.done
    ∧ (psyco_exec_green env command s0).2.conn.async_cursor = none := by
  unfold psyco_exec_green
  simp [h, exec_end]

/-- C1 amended witness: concrete busy connection, concrete environment. -/
theorem exec_green_busy_errors_and_clears_witness :
    (psyco_exec_green ⟨some 1, true, true, true, true, true, "eb", some 7⟩ "q"
        ⟨⟨some 5, AsyncStatus.idle, false⟩, none, [], []⟩).1 = none
    ∧ (psyco_exec_green ⟨some 1, true, true, true, true, true, "eb", some 7⟩ "q"
        ⟨⟨some 5, AsyncStatus.idle, false⟩, none, [], []⟩).2.err
        = some (PyErr.programmingError
            "a single async query can be executed on the same connection")
    ∧ (psyco_exec_green ⟨some 1, true, true, true, true, true, "eb", some 7⟩ "q"
        ⟨⟨some 5, AsyncStatus.idle, false⟩, none, [], []⟩).2.conn.async_status
        = AsyncStatus.done
    ∧ (psyco_exec_green ⟨some 1, true, true, true, true, true, "eb", some 7⟩ "q"
        ⟨⟨some 5, AsyncStatus.idle, false⟩, none, [], []⟩).2.conn.async_cursor
        = none :=
  exec_green_busy_errors_and_clears
    ⟨some 1, true, true, true, true, true, "eb", some 7⟩ "q"
    ⟨⟨some 5, AsyncStatus.idle, false⟩, none, [], []⟩ rfl

/-- C2 counterexample: with no wait callback registered (and the marker
and send steps succeeding), `pq_send_query` IS invoked — `Call.send`
appears in the trace — contradicting the claim that no command is sent. -/
theorem exec_green_nocallback_sends_counterexample :
    Call.send ∈ (psyco_exec_green ⟨none, true, true, true, true, true, "eb", some 7⟩
        "q" ⟨⟨none, AsyncStatus.idle, false⟩, none, [], []⟩).2.trace := by
  decide

/-- C2 amended: when no wait callback is registered, the marker is unset
and marker creation and the send succeed, `psyco_exec_green` fails with
the `OperationalError` "wait callback not available" — but only after
`pq_send_query` has been invoked: the callback check happens inside
`psyco_wait`, after the command is sent. -/
theorem exec_green_nocallback_sends_then_fails (env : Env) (command : String)
    (s0 : PState) (h1 : env.wait_callback = none) (h2 : env.markerOk = true)
    (h3 : env.sendOk = true) (h4 : s0.conn.async_cursor = none) :
    (psyco_exec_green env command s0).1 = none
    ∧ (psyco_exec_green env command s0).2.err
        = some (PyErr.operationalError "wait callback not available")
    ∧ Call.send ∈ (psyco_exec_green env command s0).2.trace := by
  unfold psyco_exec_green psyco_wait have_wait_callback psyco_panic_cancel
  cases hc : env.cancelOk <;>
    simp [h1, h2, h3, h4, hc, exec_end, psyco_wait, have_wait_callback]

/-- C2 amended witness: concrete run with no callback registered. -/
theorem exec_green_nocallback_sends_then_fails_witness :
    (psyco_exec_green ⟨none, true, true, true, true, true, "eb", some 7⟩ "q"
        ⟨⟨none, AsyncStatus.idle, false⟩, none, [], []⟩).1 = none
    ∧ (psyco_exec_green ⟨none, true, true, true, true, true, "eb", some 7⟩ "q"
        ⟨⟨none, AsyncStatus.idle, false⟩, none, [], []⟩).2.err
        = some (PyErr.operationalError "wait callback not available")
    ∧ Call.send ∈ (psyco_exec_green ⟨none, true, true, true, true, true, "eb", some 7⟩
        "q" ⟨⟨none, AsyncStatus.idle, false⟩, none, [], []⟩).2.trace :=
  exec_green_nocallback_sends_then_fails
    ⟨none, true, true, true, true, true, "eb", some 7⟩ "q"
    ⟨⟨none, AsyncStatus.idle, false⟩, none, [], []⟩ rfl rfl rfl rfl

/-- C4: when a callback is registered, the busy marker is unset, marker
creation succeeds, the send succeeds and the primary wait succeeds,
`psyco_exec_green` returns the result fetched by `pq_get_last_result` and
leaves `async_status` equal to `ASYNC_DONE`. -/
theorem exec_green_success_returns_result (env : Env) (command : String)
    (s0 : PState) (c : Nat) (h1 : env.wait_callback = some c)
    (h2 : env.markerOk = true) (h3 : env.sendOk = true) (h4 : env.cbOk1 = true)
    (h5 : s0.conn.async_cursor = none) :
    (psyco_exec_green env command s0).1 = env.lastResult
    ∧ (psyco_exec_green env command s0).2.conn.async_status = AsyncStatus.done := by
  unfold psyco_exec_green psyco_wait have_wait_callback
  simp [h1, h2, h3, h4, h5, exec_end]

/-- C4 witness: a concrete fully successful run returns the fetched
result `some 7` with status `ASYNC_DONE`. -/
theorem exec_green_success_returns_result_witness :
    (psyco_exec_green ⟨some 1, true, true, true, true, true, "eb", some 7⟩
        "select 1" ⟨⟨none, AsyncStatus.idle, false⟩, none, [], []⟩).1 = some 7
    ∧ (psyco_exec_green ⟨some 1, true, true, true, true, true, "eb", some 7⟩
        "select 1" ⟨⟨none, AsyncStatus.idle, false⟩, none, [], []⟩).2.conn.async_status
        = AsyncStatus.done :=
  exec_green_success_returns_result
    ⟨some 1, true, true, true, true, true, "eb", some 7⟩ "select 1"
    ⟨⟨none, AsyncStatus.idle, false⟩, none, [], []⟩ 1 rfl rfl rfl rfl rfl

/-- C5: when `pq_send_query` fails, `psyco_exec_green` returns no result
with the send failure pending, `psyco_panic_cancel` is never entered and
`psyco_wait` is never called, and the busy marker is still cleared. -/
theorem exec_green_send_failure_no_cancel (env : Env) (command : String)
    (s0 : PState) (h1 : env.markerOk = true) (h2 : env.sendOk = false)
    (h3 : s0.conn.async_cursor = none) (h4 : s0.trace = []) :
    (psyco_exec_green env command s0).1 = none
    ∧ (psyco_exec_green env command s0).2.err = some PyErr.sendError
    ∧ Call.panicCancel ∉ (psyco_exec_green env command s0).2.trace
    ∧ Call.wait ∉ (psyco_exec_green env command s0).2.trace
    ∧ (psyco_exec_green env command s0).2.conn.async_cursor = none := by
  unfold psyco_exec_green
  simp [h1, h2, h3, h4, exec_end]

/-- C5 witness: a concrete run whose send fails. -/
theorem exec_green_send_failure_no_cancel_witness :
    (psyco_exec_green ⟨some 1, true, false, true, true, true, "eb", some 7⟩ "q"
        ⟨⟨none, AsyncStatus.idle, false⟩, none, [], []⟩).1 = none
    ∧ (psyco_exec_green ⟨some 1, true, false, true, true, true, "eb", some 7⟩ "q"
        ⟨⟨none, AsyncStatus.idle, false⟩, none, [], []⟩).2.err = some PyErr.sendError
    ∧ Call.panicCancel ∉ (psyco_exec_green ⟨some 1, true, false, true, true, true, "eb",
        some 7⟩ "q" ⟨⟨none, AsyncStatus.idle, false⟩, none, [], []⟩).2.trace
    ∧ Call.wait ∉ (psyco_exec_green ⟨some 1, true, false, true, true, true, "eb",
        some 7⟩ "q" ⟨⟨none, AsyncStatus.idle, false⟩, none, [], []⟩).2.trace
    ∧ (psyco_exec_green ⟨some 1, true, false, true, true, true, "eb", some 7⟩ "q"
        ⟨⟨none, AsyncStatus.idle, false⟩, none, [], []⟩).2.conn.async_cursor = none :=
  exec_green_send_failure_no_cancel
    ⟨some 1, true, false, true, true, true, "eb", some 7⟩ "q"
    ⟨⟨none, AsyncStatus.idle, false⟩, none, [], []⟩ rfl rfl rfl rfl

/-- C7: when `psyco_panic_cancel` is entered with the original wait error
pending, the cancel request is sent successfully, and the post-cancel wait
also fails, the connection is force-closed, the warning "async cancel
failed: closing the connection" is recorded, and the pending error on
return is still the original wait failure. -/
theorem panic_cancel_second_wait_failure_closes (env : Env) (s0 : PState)
    (e : PyErr) (c : Nat) (h1 : s0.err = some e) (h2 : env.cancelOk = true)
    (h3 : env.wait_callback = some c) (h4 : env.cbOk2 = false) :
    (psyco_panic_cancel env s0).conn.closed = true
    ∧ "async cancel failed: closing the connection"
        ∈ (psyco_panic_cancel env s0).warnings
    ∧ (psyco_panic_cancel env s0).err = some e := by
  unfold psyco_panic_cancel psyco_wait have_wait_callback
  simp [h1, h2, h3, h4]

/-- C7 witness: concrete recovery run whose post-cancel wait fails. -/
theorem panic_cancel_second_wait_failure_closes_witness :
    (psyco_panic_cancel ⟨some 1, true, true, true, false, true, "eb", some 7⟩
        ⟨⟨some 0, AsyncStatus.write, false⟩, some PyErr.callbackError, [], []⟩).conn.closed
        = true
    ∧ "async cancel failed: closing the connection"
        ∈ (psyco_panic_cancel ⟨some 1, true, true, true, false, true, "eb", some 7⟩
        ⟨⟨some 0, AsyncStatus.write, false⟩, some PyErr.callbackError, [], []⟩).warnings
    ∧ (psyco_panic_cancel ⟨some 1, true, true, true, false, true, "eb", some 7⟩
        ⟨⟨some 0, AsyncStatus.write, false⟩, some PyErr.callbackError, [], []⟩).err
        = some PyErr.callbackError :=
  panic_cancel_second_wait_failure_closes
    ⟨some 1, true, true, true, false, true, "eb", some 7⟩
    ⟨⟨some 0, AsyncStatus.write, false⟩, some PyErr.callbackError, [], []⟩
    PyErr.callbackError 1 rfl rfl rfl rfl

/-- C8: when `PQcancel` itself fails, recovery stops there: a warning
carrying the transport failure text is recorded, the connection is left
untouched (in particular not closed), no second wait is entered (the
trace gains only the recovery entry and the cancel call, no `Call.wait`),
and the original pending error is reported unchanged. -/
theorem panic_cancel_transport_failure_stops (env : Env) (s0 : PState)
    (e : PyErr) (h1 : s0.err = some e) (h2 : env.cancelOk = false) :
    (psyco_panic_cancel env s0).err = some e
    ∧ (psyco_panic_cancel env s0).conn = s0.conn
    ∧ (psyco_panic_cancel env s0).warnings = s0.warnings ++ [env.cancelErrMsg]
    ∧ (psyco_panic_cancel env s0).trace
        = s0.trace ++ [Call.panicCancel, Call.cancel] := by
  unfold psyco_panic_cancel
  simp [h1, h2]

/-- C8 witness: concrete recovery run whose cancel request cannot be
sent. -/
theorem panic_cancel_transport_failure_stops_witness :
    (psyco_panic_cancel ⟨some 1, true, true, true, true, false, "no conn", some 7⟩
        ⟨⟨some 0, AsyncStatus.write, false⟩, some PyErr.callbackError, [], []⟩).err
        = some PyErr.callbackError
    ∧ (psyco_panic_cancel ⟨some 1, true, true, true, true, false, "no conn", some 7⟩
        ⟨⟨some 0, AsyncStatus.write, false⟩, some PyErr.callbackError, [], []⟩).conn
        = ⟨some 0, AsyncStatus.write, false⟩
    ∧ (psyco_panic_cancel ⟨some 1, true, true, true, true, false, "no conn", some 7⟩
        ⟨⟨some 0, AsyncStatus.write, false⟩, some PyErr.callbackError, [], []⟩).warnings
        = [] ++ ["no conn"]
    ∧ (psyco_panic_cancel ⟨some 1, true, true, true, true, false, "no conn", some 7⟩
        ⟨⟨some 0, AsyncStatus.write, false⟩, some PyErr.callbackError, [], []⟩).trace
        = [] ++ [Call.panicCancel, Call.cancel] :=
  panic_cancel_transport_failure_stops
    ⟨some 1, true, true, true, true, false, "no conn", some 7⟩
    ⟨⟨some 0, AsyncStatus.write, false⟩, some PyErr.callbackError, [], []⟩
    PyErr.callbackError rfl rfl

/-- C10: when `psyco_panic_cancel` is entered with no pending exception
and the recovery itself raises one (the cancel is sent but the post-cancel
wait fails, leaving the callback failure pending), that newly raised
exception is still pending on return: the final restore step is skipped
rather than clobbering it with the absent original error. -/
theorem panic_cancel_no_pending_keeps_recovery_error (env : Env) (s0 : PState)
    (c : Nat) (h1 : s0.err = none) (h2 : env.cancelOk = true)
    (h3 : env.wait_callback = some c) (h4 : env.cbOk2 = false) :
    (psyco_panic_cancel env s0).err = some PyErr.callbackError := by
  unfold psyco_panic_cancel psyco_wait have_wait_callback
  simp [h1, h2, h3, h4]

/-- C10 witness: concrete recovery run entered with no pending exception
whose post-cancel wait fails. -/
theorem panic_cancel_no_pending_keeps_recovery_error_witness :
    (psyco_panic_cancel ⟨some 1, true, true, true, false, true, "eb", some 7⟩
        ⟨⟨some 0, AsyncStatus.write, false⟩, none, [], []⟩).err
        = some PyErr.callbackError :=
  panic_cancel_no_pending_keeps_recovery_error
    ⟨some 1, true, true, true, false, true, "eb", some 7⟩
    ⟨⟨some 0, AsyncStatus.write, false⟩, none, [], []⟩ 1 rfl rfl rfl rfl

end Green
